import Mathlib

/-!
# Verification of the MusicBrainz CLI against its specification

Shallow embedding of the rate-limited request client (`src/api.py`) and the
identifier resolver / formatting helpers (`src/main.py`), with theorems
settling the specification's claims about them.
-/

/-- Weakly-typed JSON-like documents, as returned by `json.loads` in
`MusicBrainzAPI._make_request` and consumed defensively by the resolver and
the command handlers. -/
inductive Json where
  | null
  | bool (b : Bool)
  | num (n : Int)
  | str (s : String)
  | arr (elements : List Json)
  | obj (fields : List (String × Json))

/-- Key lookup on an object document: `some v` when the key is present. -/
def Json.lookupKey : Json → String → Option Json
  | .obj kvs, key => kvs.lookup key
  | _, _ => none

/-- Python's `dict.get(key, default)` on a document. -/
def Json.getD (j : Json) (key : String) (dflt : Json) : Json :=
  (j.lookupKey key).getD dflt

/-- Python truthiness of a JSON value (`if x:`): `None`, `False`, `0`, `""`,
`[]` and `{}` are falsy, everything else truthy. -/
def Json.truthy : Json → Bool
  | .null => false
  | .bool b => b
  | .num n => n != 0
  | .str s => s != ""
  | .arr elements => !elements.isEmpty
  | .obj fields => !fields.isEmpty

/-- A numeric document value as an integer, `none` otherwise (`None` stays
`none`; the code only ever reaches this with numbers or `None`). -/
def Json.asInt : Json → Option Int
  | .num n => some n
  | _ => none

/-- Zero-padding of the seconds field to two digits, as done by the
`f"{seconds:02d}"` format in `format_duration` (seconds here is `< 60`). -/
def pad2 (n : Nat) : String :=
  if n < 10 then "0" ++ toString n else toString n

/-- `format_duration` (main.py lines 101-118): `None` or a non-positive
millisecond count renders `"0:00"` (the code's guard is
`if not milliseconds or milliseconds < 0`); otherwise the value is floored to
whole seconds with `//` and rendered `M:SS`. -/
def format_duration (milliseconds : Option Int) : String :=
  match milliseconds with
  | none => "0:00"
  | some ms =>
    if ms = 0 ∨ ms < 0 then "0:00"
    else
      let seconds := ms.toNat / 1000
      let minutes := seconds / 60
      toString minutes ++ ":" ++ pad2 (seconds % 60)

example : format_duration (some 285000) = "4:45" := by decide
example : format_duration (some 383000) = "6:23" := by decide
example : format_duration (some 3600000) = "60:00" := by decide
example : format_duration (some 65000) = "1:05" := by decide

/-- The character class `[0-9a-f]` of `MBID_PATTERN` under `re.IGNORECASE`. -/
def isMbidHexDigit (c : Char) : Bool :=
  ('0' ≤ c && c ≤ '9') || ('a' ≤ c && c ≤ 'f') || ('A' ≤ c && c ≤ 'F')

/-- Consume exactly `n` characters of the class `[0-9a-f]` (case-insensitive),
returning the remaining input; embeds a `[0-9a-f]{n}` regex fragment. -/
def hexRun : Nat → List Char → Option (List Char)
  | 0, rest => some rest
  | _ + 1, [] => none
  | n + 1, c :: rest => if isMbidHexDigit c then hexRun n rest else none

/-- Consume a literal `-`, as in the regex. -/
def expectDash : List Char → Option (List Char)
  | '-' :: rest => some rest
  | _ => none

/-- Sequential matcher for the body of `MBID_PATTERN`:
`[0-9a-f]{8}-[0-9a-f]{4}-[0-9a-f]{4}-[0-9a-f]{4}-[0-9a-f]{12}`. -/
def mbidScan (cs : List Char) : Option (List Char) :=
  (hexRun 8 cs).bind fun r1 =>
  (expectDash r1).bind fun r2 =>
  (hexRun 4 r2).bind fun r3 =>
  (expectDash r3).bind fun r4 =>
  (hexRun 4 r4).bind fun r5 =>
  (expectDash r5).bind fun r6 =>
  (hexRun 4 r6).bind fun r7 =>
  (expectDash r7).bind fun r8 =>
  hexRun 12 r8

/-- The pattern matches the whole character list. -/
def mbidCore (cs : List Char) : Bool :=
  mbidScan cs == some []

/-- `is_valid_mbid` (main.py lines 17-32): `MBID_PATTERN.match(string)` with
the pattern anchored by `^...$`. In Python, `$` (without `re.MULTILINE`) also
matches just before one trailing `'\n'` at the end of the string, so the
regex accepts an identifier followed by a single trailing newline. -/
def is_valid_mbid (s : String) : Bool :=
  mbidCore s.toList ||
    (match s.toList.getLast? with
     | some '\n' => mbidCore s.toList.dropLast
     | _ => false)

example : is_valid_mbid "a74b1b7f-71a5-4011-9441-d0b5e4122711" = true := by decide
example : is_valid_mbid "A74B1B7F-71A5-4011-9441-D0B5E4122711" = true := by decide
example : is_valid_mbid "not-a-valid-mbid" = false := by decide
example : is_valid_mbid "Radiohead" = false := by decide
example : is_valid_mbid "" = false := by decide
example : is_valid_mbid "a74b1b7f-71a5-4011-9441-d0b5e4122711\n" = true := by decide

/-- Outcome of running resolver code: a normal value, a raised `ValueError`
(the "not found" resolution failure), or any other uncaught Python exception
(`KeyError`/`TypeError` from indexing malformed results). -/
inductive PyErr where
  | valueError (msg : String)
  | crash

/-- The expression `results_list[0]['id']` applied to the (truthy) value of a
typed result list: the first element's `'id'` field when the list is a
non-empty array of objects carrying the key, an uncaught exception
otherwise. -/
def indexZeroId : Json → Except PyErr Json
  | .arr (first :: _) =>
    match first with
    | .obj kvs =>
      match kvs.lookup "id" with
      | some v => .ok v
      | none => .error .crash
    | _ => .error .crash
  | _ => .error .crash

/-- `resolve_artist_mbid` (main.py lines 35-61), with the API abstracted as
the function `search` from the search query to the returned document (the
`limit=1` argument is fixed in the source). The second component records the
search queries issued, in order; an MBID-shaped input is returned unchanged
with no call. -/
def resolve_artist_mbid (search : String → Json) (query : String) :
    Except PyErr Json × List String :=
  if is_valid_mbid query then (.ok (.str query), [])
  else
    let results := search query
    let artists := results.getD "artists" (.arr [])
    if artists.truthy then
      (indexZeroId artists, [query])
    else
      (.error (.valueError ("Artist '" ++ query ++ "' not found")), [query])

/-- The search expression `f'release:"{query}" AND artist:"{artist}"'` built
by `resolve_release_mbid` when an artist disambiguator is supplied
(main.py line 87). -/
def mkReleaseSearchQuery (query artist : String) : String :=
  "release:\"" ++ query ++ "\" AND artist:\"" ++ artist ++ "\""

/-- `resolve_release_mbid` (main.py lines 64-98), abstracted like
`resolve_artist_mbid`. `artist = some a` with non-empty `a` is the Python
truthiness test `if artist:` guarding both the compound search expression and
the disambiguated error message. -/
def resolve_release_mbid (search : String → Json) (query : String)
    (artist : Option String) : Except PyErr Json × List String :=
  if is_valid_mbid query then (.ok (.str query), [])
  else
    let search_query :=
      match artist with
      | some a => if a != "" then mkReleaseSearchQuery query a else query
      | none => query
    let results := search search_query
    let releases := results.getD "releases" (.arr [])
    let res : Except PyErr Json :=
      if releases.truthy then
        indexZeroId releases
      else
        match artist with
        | some a =>
          if a != "" then
            .error (.valueError ("Release '" ++ query ++ "' by '" ++ a ++ "' not found"))
          else
            .error (.valueError ("Release '" ++ query ++ "' not found"))
        | none => .error (.valueError ("Release '" ++ query ++ "' not found"))
    (res, [search_query])

/-- `RATE_LIMIT` (api.py line 18): minimum interval between requests, in
seconds. -/
def RATE_LIMIT : ℚ := 1

/-- `MusicBrainzAPI._rate_limit` (api.py lines 36-45) over rational
wall-clock time. `last` is `self._last_request_time`, `now` the value of
`time.time()` on entry, and `slack ≥ 0` accounts for `time.sleep` waking late
and for the delay before the second `time.time()` read. The result is the new
`self._last_request_time`, which is set immediately before the request is
dispatched, so it is also the dispatch (initiation) time of the request. -/
def rate_limit (last now slack : ℚ) : ℚ :=
  (if now - last < RATE_LIMIT then now + (RATE_LIMIT - (now - last)) else now) + slack

/-- Dispatch times of a sequence of requests issued through one client:
each call supplies the clock value on entry and its nonnegative slack, and the
timestamp stored by `_rate_limit` for one call is the `last` seen by the
next. -/
def dispatchTimes (last : ℚ) : List (ℚ × ℚ) → List ℚ
  | [] => []
  | (now, slack) :: rest =>
    rate_limit last now slack :: dispatchTimes (rate_limit last now slack) rest

/-- `APIError` (api.py lines 314-316): the single uniform error kind raised
by the client, carrying a human-readable message. -/
structure APIError where
  msg : String

/-- Transport outcome of one `urllib.request.urlopen` call together with the
JSON decode of its body, as discriminated by the `try/except` chain of
`_make_request` (api.py lines 76-98): a successfully decoded body, a body
that failed to decode (with the decoder's error string), an
`urllib.error.HTTPError` with its status code and reason, a non-HTTP
`urllib.error.URLError`, or any other unexpected exception. -/
inductive HttpOutcome where
  | success (doc : Json)
  | badJson (err : String)
  | httpError (code : Nat) (reason : String)
  | urlError (reason : String)
  | unexpected (err : String)

/-- The sentinel "not found" document returned for an HTTP 404
(api.py line 83). -/
def sentinelNotFound : Json :=
  .obj [("error", .str "not_found"), ("message", .str "Entity not found")]

/-- The error-classification part of `MusicBrainzAPI._make_request`
(api.py lines 76-98): how each transport outcome becomes a returned document
or a raised `APIError`. -/
def make_request_classify : HttpOutcome → Except APIError Json
  | .success doc => .ok doc
  | .httpError code reason =>
    if code = 404 then .ok sentinelNotFound
    else if code = 503 then
      .error ⟨"MusicBrainz service unavailable (503). Try again later."⟩
    else if code = 400 then
      .error ⟨"Bad request (400). Check your query parameters."⟩
    else .error ⟨"HTTP " ++ toString code ++ ": " ++ reason⟩
  | .urlError reason => .error ⟨"Network error: " ++ reason⟩
  | .badJson err => .error ⟨"Invalid JSON response: " ++ err⟩
  | .unexpected err => .error ⟨"Unexpected error: " ++ err⟩

/-- A query-string parameter value: Python passes both strings and ints. -/
inductive PVal where
  | str (s : String)
  | int (n : Int)

/-- `MusicBrainzAPI.search_artist` (api.py lines 102-120), with
`_make_request` abstracted as `req` taking the endpoint and the parameter
list (in Python dict insertion order). -/
def search_artist (req : String → List (String × PVal) → Json)
    (query : String) (limit : Int) : Json :=
  req "artist" [("query", .str query), ("limit", .int (min limit 100))]

/-- `MusicBrainzAPI.search_release` (api.py lines 122-136). -/
def search_release (req : String → List (String × PVal) → Json)
    (query : String) (limit : Int) : Json :=
  req "release" [("query", .str query), ("limit", .int (min limit 100))]

/-- `MusicBrainzAPI.search_recording` (api.py lines 138-152). -/
def search_recording (req : String → List (String × PVal) → Json)
    (query : String) (limit : Int) : Json :=
  req "recording" [("query", .str query), ("limit", .int (min limit 100))]

/-- `MusicBrainzAPI.search_label` (api.py lines 154-168). -/
def search_label (req : String → List (String × PVal) → Json)
    (query : String) (limit : Int) : Json :=
  req "label" [("query", .str query), ("limit", .int (min limit 100))]

/-- `MusicBrainzAPI.search_by_tag` (api.py lines 170-185). -/
def search_by_tag (req : String → List (String × PVal) → Json)
    (entity_type tag : String) (limit : Int) : Json :=
  req entity_type [("query", .str ("tag:" ++ tag)), ("limit", .int (min limit 100))]

/-- The `if filter: params['key'] = filter` pattern of the browse methods:
one parameter entry when the optional filter string is supplied and truthy
(non-empty), nothing otherwise. -/
def optFilterParam (key : String) (v : Option String) : List (String × PVal) :=
  match v with
  | some s => if s != "" then [(key, PVal.str s)] else []
  | none => []

/-- The `params` dict built by `browse_releases_by_artist`
(api.py lines 274-282), in Python insertion order. -/
def browseArtistParams (artist_mbid : String) (limit : Int)
    (release_type status : Option String) : List (String × PVal) :=
  [("artist", PVal.str artist_mbid), ("limit", PVal.int (min limit 100))] ++
    optFilterParam "type" release_type ++ optFilterParam "status" status

/-- `MusicBrainzAPI.browse_releases_by_artist` (api.py lines 255-284); the
`if release_type:` / `if status:` truthiness tests admit only a supplied,
non-empty filter string. -/
def browse_releases_by_artist (req : String → List (String × PVal) → Json)
    (artist_mbid : String) (limit : Int)
    (release_type status : Option String) : Json :=
  req "release" (browseArtistParams artist_mbid limit release_type status)

/-- The `params` dict built by `browse_releases_by_label`
(api.py lines 303-309). -/
def browseLabelParams (label_mbid : String) (limit : Int)
    (release_type : Option String) : List (String × PVal) :=
  [("label", PVal.str label_mbid), ("limit", PVal.int (min limit 100))] ++
    optFilterParam "type" release_type

/-- `MusicBrainzAPI.browse_releases_by_label` (api.py lines 286-311). -/
def browse_releases_by_label (req : String → List (String × PVal) → Json)
    (label_mbid : String) (limit : Int) (release_type : Option String) : Json :=
  req "release" (browseLabelParams label_mbid limit release_type)

/-- Outcome of the body of one command handler, as seen by the `try/except`
chains of `cmd_artist_info` and its three siblings and of `main`
(main.py lines 199-204, 484-491). -/
inductive CmdOutcome where
  | ok
  | valueError (msg : String)
  | apiError (msg : String)
  | keyboardInterrupt
  | otherError (msg : String)

/-- The shared `except` chain of the four command handlers
(main.py lines 199-204 and parallels): a `ValueError` prints to stderr and
exits 1, an `APIError` prints to stderr and exits 2, everything else
propagates (`none`). -/
def cmd_handle : CmdOutcome → Option (Nat × String)
  | .valueError m => some (1, "\nError: " ++ m)
  | .apiError m => some (2, "\nAPI Error: " ++ m)
  | _ => none

/-- `main` (main.py lines 471-491) around a command handler: the exit code of
the process and the lines printed to stderr. A normal return exits 0;
`sys.exit` from the handler's own `except` clause carries its code through
(`SystemExit` is not caught by `except Exception`); `KeyboardInterrupt`
exits 130 and any other exception exits 1. -/
def main_handle (o : CmdOutcome) : Nat × List String :=
  match cmd_handle o with
  | some (code, line) => (code, [line])
  | none =>
    match o with
    | .keyboardInterrupt => (130, ["\n\nInterrupted by user."])
    | .otherError m => (1, ["\nUnexpected error: " ++ m])
    | _ => (0, [])

/-- The per-track duration rendering of `cmd_album_tracks`
(main.py lines 369-376): `length = track.get('length', 0)` then
`format_duration(length) if length else "?"`. -/
def trackDurationDisplay (track : Json) : String :=
  let length := track.getD "length" (.num 0)
  if length.truthy then format_duration length.asInt else "?"

/-- Rendering of a positive duration: unfolds the arithmetic branch of
`format_duration`. -/
theorem format_duration_pos (m : Int) (hm : 0 < m) :
    format_duration (some m) =
      toString (m.toNat / 1000 / 60) ++ ":" ++ pad2 (m.toNat / 1000 % 60) := by
  simp only [format_duration]
  rw [if_neg (by omega)]

/-- C7: `format_duration` floors a millisecond value to whole seconds and
renders it `M:SS` with seconds zero-padded to two digits; zero, negative or
missing input renders `"0:00"`; `285000 → "4:45"`, `383000 → "6:23"`, and
`3600000 → "60:00"` (minutes are not wrapped at 60). Flooring is expressed by
the last conjunct: the rendering of `s` whole seconds plus any sub-second
remainder `r < 1000` equals the rendering of exactly `s` seconds. -/
theorem c7_format_duration :
    format_duration (some 285000) = "4:45" ∧
    format_duration (some 383000) = "6:23" ∧
    format_duration (some 3600000) = "60:00" ∧
    format_duration (some 65000) = "1:05" ∧
    format_duration none = "0:00" ∧
    format_duration (some 0) = "0:00" ∧
    (∀ m : Int, m < 0 → format_duration (some m) = "0:00") ∧
    (∀ s r : Nat, r < 1000 →
      format_duration (some ((s * 1000 + r : Nat) : Int)) =
        format_duration (some ((s * 1000 : Nat) : Int))) := by
  refine ⟨by decide, by decide, by decide, by decide, rfl, rfl, ?_, ?_⟩
  · intro m hm
    simp only [format_duration]
    rw [if_pos (Or.inr hm)]
  · intro s r hr
    by_cases hs : s = 0
    · subst hs
      simp only [Nat.zero_mul, Nat.zero_add]
      by_cases hr0 : r = 0
      · subst hr0; rfl
      · rw [format_duration_pos _ (by omega)]
        rw [Int.toNat_natCast]
        have hz : r / 1000 = 0 := by omega
        rw [hz]
        simp only [format_duration, Int.natCast_zero]
        decide
    · rw [format_duration_pos _ (by omega), format_duration_pos _ (by omega)]
      rw [Int.toNat_natCast, Int.toNat_natCast]
      have hsec : (s * 1000 + r) / 1000 = s * 1000 / 1000 := by omega
      rw [hsec]

/-- Witness for C7 at concrete inputs. -/
theorem c7_format_duration_witness :
    format_duration (some (-5)) = "0:00" ∧
    format_duration (some ((7 * 1000 + 123 : Nat) : Int)) =
      format_duration (some ((7 * 1000 : Nat) : Int)) :=
  ⟨c7_format_duration.2.2.2.2.2.2.1 (-5) (by norm_num),
   c7_format_duration.2.2.2.2.2.2.2 7 123 (by norm_num)⟩

/-- C6: the process exit code is 0 on success, 1 for a resolution failure
(`ValueError`) caught at the command layer, 2 for a service failure
(`APIError`), and 130 on user interrupt; resolution and service failures are
printed to the error stream before exiting. -/
theorem c6_exit_codes :
    main_handle .ok = (0, []) ∧
    (∀ m, main_handle (.valueError m) = (1, ["\nError: " ++ m])) ∧
    (∀ m, main_handle (.apiError m) = (2, ["\nAPI Error: " ++ m])) ∧
    main_handle .keyboardInterrupt = (130, ["\n\nInterrupted by user."]) :=
  ⟨rfl, fun _ => rfl, fun _ => rfl, rfl⟩

/-- C10: in `cmd_album_tracks`, a track whose `length` field is missing,
zero, or otherwise falsy renders `"?"` (never `"0:00"`); a track with a
positive length renders `format_duration` of that length. -/
theorem c10_track_duration :
    (∀ track : Json, (track.getD "length" (.num 0)).truthy = false →
      trackDurationDisplay track = "?") ∧
    (∀ track : Json, ∀ n : Int, track.getD "length" (.num 0) = .num n → 0 < n →
      trackDurationDisplay track = format_duration (some n)) ∧
    "?" ≠ "0:00" := by
  refine ⟨?_, ?_, by decide⟩
  · intro track h
    simp [trackDurationDisplay, h]
  · intro track n h hn
    have hne : n ≠ 0 := by omega
    simp [trackDurationDisplay, h, Json.truthy, Json.asInt, hne]

/-- Witness for C10: a track without a `length` key renders `"?"`, one with
a positive length renders via `format_duration`. -/
theorem c10_track_duration_witness :
    trackDurationDisplay (Json.obj [("position", Json.num 1)]) = "?" ∧
    trackDurationDisplay (Json.obj [("length", Json.num 285000)]) =
      format_duration (some 285000) :=
  ⟨c10_track_duration.1 _ rfl,
   c10_track_duration.2.1 _ 285000 rfl (by norm_num)⟩

/-- One `_rate_limit` call moves the stored timestamp (= dispatch time) at
least `RATE_LIMIT` past the previous one, whatever the clock reads on
entry. -/
theorem rate_limit_lower_bound (last now slack : ℚ) (h : 0 ≤ slack) :
    last + RATE_LIMIT ≤ rate_limit last now slack := by
  simp only [rate_limit, RATE_LIMIT]
  split
  · linarith
  · rename_i hc
    rw [not_lt] at hc
    linarith

/-- C1: for every two consecutive requests issued through the client, the
second request's initiation is at least `RATE_LIMIT` (1 second) after the
first's: along any run of calls (each with its entry clock reading and a
nonnegative sleep/clock slack), consecutive dispatch times are at least the
interval apart, because `_rate_limit` sleeps for the remainder of the
interval and stores the timestamp immediately before dispatch. -/
theorem c1_rate_limit_gap (last : ℚ) (calls : List (ℚ × ℚ))
    (h : ∀ p ∈ calls, 0 ≤ p.2) :
    (dispatchTimes last calls).Chain' (fun a b => a + RATE_LIMIT ≤ b) := by
  induction calls generalizing last with
  | nil => simp [dispatchTimes]
  | cons p rest ih =>
    obtain ⟨now, slack⟩ := p
    cases rest with
    | nil => simp [dispatchTimes]
    | cons p2 rest2 =>
      obtain ⟨now2, slack2⟩ := p2
      have hch := ih (rate_limit last now slack)
        (fun x hx => h x (List.mem_cons_of_mem _ hx))
      simp only [dispatchTimes] at hch ⊢
      rw [List.chain'_cons]
      exact ⟨rate_limit_lower_bound _ _ _ (h (now2, slack2) (by simp)), hch⟩

/-- Witness for C1: a concrete run of three calls with ideal sleeps. -/
theorem c1_rate_limit_gap_witness :
    (dispatchTimes 0 [(0, 0), (1/2, 0), (5, 0)]).Chain'
      (fun a b => a + RATE_LIMIT ≤ b) :=
  c1_rate_limit_gap 0 [(0, 0), (1/2, 0), (5, 0)] (by
    intro p hp
    simp only [List.mem_cons, List.not_mem_nil, or_false] at hp
    rcases hp with rfl | rfl | rfl <;> norm_num)

/-- C4: `_make_request` classifies transport outcomes: HTTP 404 returns the
sentinel not-found document (a normal return, never an exception); HTTP 503
raises `APIError` with a message containing `"503"`; a body that fails to
parse as JSON raises `APIError` with a message referencing the parse
failure; and every other HTTP status, network failure, or unexpected fault
raises `APIError` with a message including the distinguishing status code or
cause string. -/
theorem c4_make_request_classification :
    (∀ r, make_request_classify (.httpError 404 r) = .ok sentinelNotFound) ∧
    (∀ r, ∃ e pre post, make_request_classify (.httpError 503 r) = .error e ∧
      e.msg = pre ++ "503" ++ post) ∧
    (∀ err, ∃ e pre post, make_request_classify (.badJson err) = .error e ∧
      e.msg = pre ++ err ++ post) ∧
    (∀ code r, code ≠ 404 → ∃ e pre post,
      make_request_classify (.httpError code r) = .error e ∧
      e.msg = pre ++ toString code ++ post) ∧
    (∀ r, ∃ e pre post, make_request_classify (.urlError r) = .error e ∧
      e.msg = pre ++ r ++ post) ∧
    (∀ m, ∃ e pre post, make_request_classify (.unexpected m) = .error e ∧
      e.msg = pre ++ m ++ post) := by
  refine ⟨fun r => rfl, ?_, ?_, ?_, ?_, ?_⟩
  · intro r
    exact ⟨_, "MusicBrainz service unavailable (", "). Try again later.", rfl, rfl⟩
  · intro err
    exact ⟨_, "Invalid JSON response: ", "", rfl, by simp⟩
  · intro code r h404
    by_cases h503 : code = 503
    · subst h503
      exact ⟨_, "MusicBrainz service unavailable (", "). Try again later.", rfl, rfl⟩
    · by_cases h400 : code = 400
      · subst h400
        exact ⟨_, "Bad request (", "). Check your query parameters.", rfl, rfl⟩
      · refine ⟨⟨"HTTP " ++ toString code ++ ": " ++ r⟩, "HTTP ", ": " ++ r, ?_,
          by rw [String.append_assoc]⟩
        simp only [make_request_classify]
        rw [if_neg h404, if_neg h503, if_neg h400]
  · intro r
    exact ⟨_, "Network error: ", "", rfl, by simp⟩
  · intro m
    exact ⟨_, "Unexpected error: ", "", rfl, by simp⟩

/-- Witness for C4: classification of a 500 response carries the status code
in the message. -/
theorem c4_make_request_classification_witness :
    ∃ e pre post,
      make_request_classify (.httpError 500 "Internal Server Error") = .error e ∧
      e.msg = pre ++ toString 500 ++ post :=
  c4_make_request_classification.2.2.2.1 500 "Internal Server Error" (by norm_num)

/-- A run of hex digits of the right length is consumed exactly. -/
theorem hexRun_append (g rest : List Char) (hg : g.all isMbidHexDigit = true) :
    hexRun g.length (g ++ rest) = some rest := by
  induction g with
  | nil => rfl
  | cons c cs ih =>
    simp only [List.all_cons, Bool.and_eq_true] at hg
    simp [hexRun, hg.1, ih hg.2]

/-- A character list in the identifier shape (hex groups of lengths
8-4-4-4-12 joined by dashes) is accepted by the pattern matcher. -/
theorem mbidCore_structured (g1 g2 g3 g4 g5 : List Char)
    (h1 : g1.length = 8) (h2 : g2.length = 4) (h3 : g3.length = 4)
    (h4 : g4.length = 4) (h5 : g5.length = 12)
    (hhex : (g1 ++ g2 ++ g3 ++ g4 ++ g5).all isMbidHexDigit = true) :
    mbidCore (g1 ++ '-' :: (g2 ++ '-' :: (g3 ++ '-' :: (g4 ++ '-' :: g5)))) = true := by
  simp only [List.all_append, Bool.and_eq_true] at hhex
  obtain ⟨⟨⟨⟨hx1, hx2⟩, hx3⟩, hx4⟩, hx5⟩ := hhex
  have e5 : hexRun 12 g5 = some [] := by
    have := hexRun_append g5 [] hx5
    rw [List.append_nil, h5] at this
    exact this
  have e1 : hexRun 8 (g1 ++ '-' :: (g2 ++ '-' :: (g3 ++ '-' :: (g4 ++ '-' :: g5)))) =
      some ('-' :: (g2 ++ '-' :: (g3 ++ '-' :: (g4 ++ '-' :: g5)))) := by
    rw [← h1]; exact hexRun_append g1 _ hx1
  have e2 : hexRun 4 (g2 ++ '-' :: (g3 ++ '-' :: (g4 ++ '-' :: g5))) =
      some ('-' :: (g3 ++ '-' :: (g4 ++ '-' :: g5))) := by
    rw [← h2]; exact hexRun_append g2 _ hx2
  have e3 : hexRun 4 (g3 ++ '-' :: (g4 ++ '-' :: g5)) =
      some ('-' :: (g4 ++ '-' :: g5)) := by
    rw [← h3]; exact hexRun_append g3 _ hx3
  have e4 : hexRun 4 (g4 ++ '-' :: g5) = some ('-' :: g5) := by
    rw [← h4]; exact hexRun_append g4 _ hx4
  simp [mbidCore, mbidScan, e1, e2, e3, e4, e5, expectDash]

/-- C2: every string in the identifier shape (32 hex digits grouped
8-4-4-4-12, case-insensitive) is returned unchanged by both resolvers, and
no search call is issued. -/
theorem c2_shape_returned_unchanged
    (searchA searchR : String → Json) (art : Option String) (q : String)
    (g1 g2 g3 g4 g5 : List Char)
    (h1 : g1.length = 8) (h2 : g2.length = 4) (h3 : g3.length = 4)
    (h4 : g4.length = 4) (h5 : g5.length = 12)
    (hhex : (g1 ++ g2 ++ g3 ++ g4 ++ g5).all isMbidHexDigit = true)
    (hq : q.toList = g1 ++ '-' :: (g2 ++ '-' :: (g3 ++ '-' :: (g4 ++ '-' :: g5)))) :
    resolve_artist_mbid searchA q = (.ok (.str q), []) ∧
    resolve_release_mbid searchR q art = (.ok (.str q), []) := by
  have hvalid : is_valid_mbid q = true := by
    have hx := mbidCore_structured g1 g2 g3 g4 g5 h1 h2 h3 h4 h5 hhex
    rw [← hq] at hx
    simp only [is_valid_mbid, Bool.or_eq_true]
    exact Or.inl hx
  constructor
  · simp [resolve_artist_mbid, hvalid]
  · simp [resolve_release_mbid, hvalid]

/-- Witness for C2 at a concrete identifier. -/
theorem c2_shape_returned_unchanged_witness :
    resolve_artist_mbid (fun _ => Json.null) "a74b1b7f-71a5-4011-9441-d0b5e4122711" =
      (.ok (.str "a74b1b7f-71a5-4011-9441-d0b5e4122711"), []) ∧
    resolve_release_mbid (fun _ => Json.null) "a74b1b7f-71a5-4011-9441-d0b5e4122711"
        (some "Radiohead") =
      (.ok (.str "a74b1b7f-71a5-4011-9441-d0b5e4122711"), []) :=
  c2_shape_returned_unchanged (fun _ => Json.null) (fun _ => Json.null)
    (some "Radiohead") _
    ['a', '7', '4', 'b', '1', 'b', '7', 'f'] ['7', '1', 'a', '5']
    ['4', '0', '1', '1'] ['9', '4', '4', '1']
    ['d', '0', 'b', '5', 'e', '4', '1', '2', '2', '7', '1', '1']
    (by decide) (by decide) (by decide) (by decide) (by decide)
    (by decide) (by decide)

/-- C3 (code bug): `MBID_PATTERN` is anchored with `$`, which in Python also
matches just before a single trailing newline, so a 37-character query that
does not match the 36-character identifier shape is nevertheless accepted by
`is_valid_mbid` and returned unchanged with no search call — although the
search service would have returned a result for it. -/
theorem c3_trailing_newline_bug :
    ("aaaaaaaa-aaaa-aaaa-aaaa-aaaaaaaaaaaa\n" : String).length = 37 ∧
    mbidCore ("aaaaaaaa-aaaa-aaaa-aaaa-aaaaaaaaaaaa\n" : String).toList = false ∧
    is_valid_mbid "aaaaaaaa-aaaa-aaaa-aaaa-aaaaaaaaaaaa\n" = true ∧
    resolve_artist_mbid
      (fun _ => Json.obj [("artists", Json.arr [Json.obj [("id", Json.str "some-mbid")]])])
      "aaaaaaaa-aaaa-aaaa-aaaa-aaaaaaaaaaaa\n" =
      (.ok (.str "aaaaaaaa-aaaa-aaaa-aaaa-aaaaaaaaaaaa\n"), []) := by
  refine ⟨by decide, by decide, by decide, by rfl⟩

/-- C5: for a non-identifier release query with a supplied (non-empty)
disambiguator, `resolve_release_mbid` issues its single search call with a
compound expression that contains the release title and the artist name
joined by a conjunction, and that expression is not the plain concatenation
of the two strings. -/
theorem c5_conjunctive_search_query
    (search : String → Json) (q a : String)
    (hq : is_valid_mbid q = false) (ha : a ≠ "") :
    (resolve_release_mbid search q (some a)).2 = [mkReleaseSearchQuery q a] ∧
    mkReleaseSearchQuery q a =
      "release:\"" ++ q ++ "\" AND artist:\"" ++ a ++ "\"" ∧
    (∃ pre mid post, mkReleaseSearchQuery q a = pre ++ q ++ (mid ++ (a ++ post)) ∧
      ∃ x y, mid = x ++ " AND " ++ y) ∧
    mkReleaseSearchQuery q a ≠ q ++ a := by
  have hab : (a != "") = true := bne_iff_ne.mpr ha
  refine ⟨?_, rfl, ?_, ?_⟩
  · simp [resolve_release_mbid, hq, hab]
  · refine ⟨"release:\"", "\" AND artist:\"", "\"", ?_, "\"", "artist:\"", rfl⟩
    simp [mkReleaseSearchQuery, String.append_assoc]
  · intro hcontra
    have hlen := congrArg String.length hcontra
    have l1 : ("release:\"" : String).length = 9 := rfl
    have l2 : ("\" AND artist:\"" : String).length = 14 := rfl
    have l3 : ("\"" : String).length = 1 := rfl
    simp only [mkReleaseSearchQuery, String.length_append, l1, l2, l3] at hlen
    omega

/-- Witness for C5 at the spec's own example. -/
theorem c5_conjunctive_search_query_witness :
    (resolve_release_mbid (fun _ => Json.null) "OK Computer" (some "Radiohead")).2 =
      [mkReleaseSearchQuery "OK Computer" "Radiohead"] ∧
    mkReleaseSearchQuery "OK Computer" "Radiohead" =
      "release:\"" ++ "OK Computer" ++ "\" AND artist:\"" ++ "Radiohead" ++ "\"" ∧
    (∃ pre mid post, mkReleaseSearchQuery "OK Computer" "Radiohead" =
      pre ++ "OK Computer" ++ (mid ++ ("Radiohead" ++ post)) ∧
      ∃ x y, mid = x ++ " AND " ++ y) ∧
    mkReleaseSearchQuery "OK Computer" "Radiohead" ≠ "OK Computer" ++ "Radiohead" :=
  c5_conjunctive_search_query (fun _ => Json.null) "OK Computer" "Radiohead"
    (by decide) (by decide)

/-- C9: for a query the resolver actually sends to search, a returned
sentinel not-found document — or any object document lacking the typed
result list — makes both resolvers raise the resolution `ValueError`, which
the command layer turns into exit code 1 (a resolution failure, never a
service failure), and the sentinel document itself is never returned. -/
theorem c9_sentinel_is_resolution_failure
    (q : String) (hq : is_valid_mbid q = false)
    (kvs : List (String × Json)) (art : Option String)
    (hA : kvs.lookup "artists" = none) (hR : kvs.lookup "releases" = none) :
    (∃ m, (resolve_artist_mbid (fun _ => .obj kvs) q).1 = .error (.valueError m) ∧
      (main_handle (.valueError m)).1 = 1) ∧
    (∃ m, (resolve_release_mbid (fun _ => .obj kvs) q art).1 = .error (.valueError m) ∧
      (main_handle (.valueError m)).1 = 1) ∧
    (resolve_artist_mbid (fun _ => .obj kvs) q).1 ≠ .ok sentinelNotFound := by
  have hgA : (Json.obj kvs).getD "artists" (.arr []) = .arr [] := by
    simp [Json.getD, Json.lookupKey, hA]
  have hgR : (Json.obj kvs).getD "releases" (.arr []) = .arr [] := by
    simp [Json.getD, Json.lookupKey, hR]
  have hartist : (resolve_artist_mbid (fun _ => .obj kvs) q).1 =
      .error (.valueError ("Artist '" ++ q ++ "' not found")) := by
    simp [resolve_artist_mbid, hq, hgA, Json.truthy]
  refine ⟨⟨_, hartist, rfl⟩, ?_, ?_⟩
  · match art with
    | none =>
      exact ⟨"Release '" ++ q ++ "' not found",
        by simp [resolve_release_mbid, hq, hgR, Json.truthy], rfl⟩
    | some a =>
      by_cases hae : (a != "") = true
      · exact ⟨"Release '" ++ q ++ "' by '" ++ a ++ "' not found",
          by simp [resolve_release_mbid, hq, hgR, Json.truthy, hae], rfl⟩
      · exact ⟨"Release '" ++ q ++ "' not found",
          by simp [resolve_release_mbid, hq, hgR, Json.truthy,
            Bool.not_eq_true _ ▸ hae], rfl⟩
  · rw [hartist]
    simp

/-- Witness for C9: the sentinel document produced for an HTTP 404. -/
theorem c9_sentinel_is_resolution_failure_witness :
    (∃ m, (resolve_artist_mbid
        (fun _ => .obj [("error", .str "not_found"), ("message", .str "Entity not found")])
        "Radiohead").1 = .error (.valueError m) ∧
      (main_handle (.valueError m)).1 = 1) ∧
    (∃ m, (resolve_release_mbid
        (fun _ => .obj [("error", .str "not_found"), ("message", .str "Entity not found")])
        "Radiohead" (some "Radiohead")).1 = .error (.valueError m) ∧
      (main_handle (.valueError m)).1 = 1) ∧
    (resolve_artist_mbid
        (fun _ => .obj [("error", .str "not_found"), ("message", .str "Entity not found")])
        "Radiohead").1 ≠ .ok sentinelNotFound :=
  c9_sentinel_is_resolution_failure "Radiohead" (by decide)
    [("error", .str "not_found"), ("message", .str "Entity not found")]
    (some "Radiohead") rfl rfl

/-- Association lookup distributes over list append. -/
theorem lookup_append (k : String) (a b : List (String × PVal)) :
    List.lookup k (a ++ b) = (List.lookup k a).or (List.lookup k b) := by
  induction a with
  | nil => simp [List.lookup]
  | cons p rest ih =>
    obtain ⟨k', v⟩ := p
    by_cases h : (k == k') = true
    · simp [List.lookup, h]
    · simp only [Bool.not_eq_true] at h
      simp [List.lookup, h, ih]

/-- A filter entry found under its own key can only come from a supplied
filter value. -/
theorem lookup_optFilterParam_self (key : String) (v : Option String) (x : PVal)
    (h : (optFilterParam key v).lookup key = some x) :
    ∃ s, v = some s ∧ x = .str s := by
  match v with
  | none => simp [optFilterParam, List.lookup] at h
  | some s =>
    by_cases hs : (s != "") = true
    · refine ⟨s, rfl, ?_⟩
      simp [optFilterParam, hs, List.lookup] at h
      exact h.symm
    · simp only [Bool.not_eq_true] at hs
      simp [optFilterParam, hs, List.lookup] at h

/-- A supplied non-empty filter is included under its key. -/
theorem lookup_optFilterParam_pos (key s : String) (hs : s ≠ "") :
    (optFilterParam key (some s)).lookup key = some (.str s) := by
  simp [optFilterParam, bne_iff_ne.mpr hs, List.lookup]

/-- A filter never introduces entries under a different key. -/
theorem lookup_optFilterParam_other (key key' : String)
    (hk : (key' == key) = false) (v : Option String) :
    (optFilterParam key v).lookup key' = none := by
  match v with
  | none => rfl
  | some s =>
    by_cases hs : (s != "") = true
    · simp [optFilterParam, hs, List.lookup, hk]
    · simp only [Bool.not_eq_true] at hs
      simp [optFilterParam, hs, List.lookup]

/-- The browse-by-artist parameters always carry the clamped limit. -/
theorem browseArtistParams_lookup_limit (mb : String) (l : Int)
    (rt st : Option String) :
    (browseArtistParams mb l rt st).lookup "limit" = some (.int (min l 100)) := by
  simp only [browseArtistParams, lookup_append]
  rfl

/-- The `type` entry of the browse-by-artist parameters is exactly the
`type` filter's contribution. -/
theorem browseArtistParams_lookup_type (mb : String) (l : Int)
    (rt st : Option String) :
    (browseArtistParams mb l rt st).lookup "type" =
      (optFilterParam "type" rt).lookup "type" := by
  simp only [browseArtistParams, lookup_append]
  rw [lookup_optFilterParam_other "status" "type" rfl st]
  rw [show List.lookup "type"
    [("artist", PVal.str mb), ("limit", PVal.int (min l 100))] = none from rfl]
  cases (optFilterParam "type" rt).lookup "type" <;> rfl

/-- The `status` entry of the browse-by-artist parameters is exactly the
`status` filter's contribution. -/
theorem browseArtistParams_lookup_status (mb : String) (l : Int)
    (rt st : Option String) :
    (browseArtistParams mb l rt st).lookup "status" =
      (optFilterParam "status" st).lookup "status" := by
  simp only [browseArtistParams, lookup_append]
  rw [lookup_optFilterParam_other "type" "status" rfl rt]
  rw [show List.lookup "status"
    [("artist", PVal.str mb), ("limit", PVal.int (min l 100))] = none from rfl]
  rfl

/-- The browse-by-label parameters always carry the clamped limit. -/
theorem browseLabelParams_lookup_limit (mb : String) (l : Int)
    (rt : Option String) :
    (browseLabelParams mb l rt).lookup "limit" = some (.int (min l 100)) := by
  simp only [browseLabelParams, lookup_append]
  rfl

/-- The `type` entry of the browse-by-label parameters is exactly the
`type` filter's contribution. -/
theorem browseLabelParams_lookup_type (mb : String) (l : Int)
    (rt : Option String) :
    (browseLabelParams mb l rt).lookup "type" =
      (optFilterParam "type" rt).lookup "type" := by
  simp only [browseLabelParams, lookup_append]
  rfl

/-- The browse-by-label parameters never carry a `status` entry. -/
theorem browseLabelParams_lookup_status (mb : String) (l : Int)
    (rt : Option String) :
    (browseLabelParams mb l rt).lookup "status" = none := by
  simp only [browseLabelParams, lookup_append]
  rw [lookup_optFilterParam_other "type" "status" rfl rt]
  rfl

/-- C8: every search and browse wrapper clamps the requested result count to
at most 100 before passing it on, includes the optional type/status filter
parameters only when they are provided (and does include a provided non-empty
filter with its value), and returns the document from the request
unmodified. -/
theorem c8_wrappers_clamp_and_passthrough
    (req : String → List (String × PVal) → Json) :
    (∀ q l, ∃ p, search_artist req q l = req "artist" p ∧
      p.lookup "limit" = some (.int (min l 100)) ∧ min l 100 ≤ 100) ∧
    (∀ q l, ∃ p, search_release req q l = req "release" p ∧
      p.lookup "limit" = some (.int (min l 100)) ∧ min l 100 ≤ 100) ∧
    (∀ q l, ∃ p, search_recording req q l = req "recording" p ∧
      p.lookup "limit" = some (.int (min l 100)) ∧ min l 100 ≤ 100) ∧
    (∀ q l, ∃ p, search_label req q l = req "label" p ∧
      p.lookup "limit" = some (.int (min l 100)) ∧ min l 100 ≤ 100) ∧
    (∀ et t l, ∃ p, search_by_tag req et t l = req et p ∧
      p.lookup "limit" = some (.int (min l 100)) ∧ min l 100 ≤ 100) ∧
    (∀ mb l rt st,
      browse_releases_by_artist req mb l rt st =
        req "release" (browseArtistParams mb l rt st) ∧
      (browseArtistParams mb l rt st).lookup "limit" = some (.int (min l 100)) ∧
      min l 100 ≤ 100 ∧
      (∀ v, (browseArtistParams mb l rt st).lookup "type" = some v →
        ∃ t, rt = some t ∧ v = .str t) ∧
      (∀ v, (browseArtistParams mb l rt st).lookup "status" = some v →
        ∃ s, st = some s ∧ v = .str s) ∧
      (∀ t, rt = some t → t ≠ "" →
        (browseArtistParams mb l rt st).lookup "type" = some (.str t)) ∧
      (∀ s, st = some s → s ≠ "" →
        (browseArtistParams mb l rt st).lookup "status" = some (.str s))) ∧
    (∀ mb l rt,
      browse_releases_by_label req mb l rt =
        req "release" (browseLabelParams mb l rt) ∧
      (browseLabelParams mb l rt).lookup "limit" = some (.int (min l 100)) ∧
      min l 100 ≤ 100 ∧
      (∀ v, (browseLabelParams mb l rt).lookup "type" = some v →
        ∃ t, rt = some t ∧ v = .str t) ∧
      (∀ t, rt = some t → t ≠ "" →
        (browseLabelParams mb l rt).lookup "type" = some (.str t)) ∧
      (browseLabelParams mb l rt).lookup "status" = none) := by
  refine ⟨fun q l => ⟨_, rfl, rfl, min_le_right l 100⟩,
    fun q l => ⟨_, rfl, rfl, min_le_right l 100⟩,
    fun q l => ⟨_, rfl, rfl, min_le_right l 100⟩,
    fun q l => ⟨_, rfl, rfl, min_le_right l 100⟩,
    fun et t l => ⟨_, rfl, rfl, min_le_right l 100⟩, ?_, ?_⟩
  · intro mb l rt st
    refine ⟨rfl, browseArtistParams_lookup_limit mb l rt st, min_le_right l 100,
      ?_, ?_, ?_, ?_⟩
    · intro v hv
      rw [browseArtistParams_lookup_type] at hv
      exact lookup_optFilterParam_self _ _ _ hv
    · intro v hv
      rw [browseArtistParams_lookup_status] at hv
      exact lookup_optFilterParam_self _ _ _ hv
    · intro t ht hne
      subst ht
      rw [browseArtistParams_lookup_type]
      exact lookup_optFilterParam_pos _ _ hne
    · intro s hs hne
      subst hs
      rw [browseArtistParams_lookup_status]
      exact lookup_optFilterParam_pos _ _ hne
  · intro mb l rt
    refine ⟨rfl, browseLabelParams_lookup_limit mb l rt, min_le_right l 100,
      ?_, ?_, browseLabelParams_lookup_status mb l rt⟩
    · intro v hv
      rw [browseLabelParams_lookup_type] at hv
      exact lookup_optFilterParam_self _ _ _ hv
    · intro t ht hne
      subst ht
      rw [browseLabelParams_lookup_type]
      exact lookup_optFilterParam_pos _ _ hne

/-- Witness for C8: a browse call with an over-limit count and one provided
filter. -/
theorem c8_wrappers_witness :
    browse_releases_by_artist (fun _ _ => Json.null) "mbid" 250
        (some "album") none =
      (fun _ _ => Json.null) "release" (browseArtistParams "mbid" 250 (some "album") none) ∧
    (browseArtistParams "mbid" 250 (some "album") none).lookup "limit" =
      some (.int (min 250 100)) ∧
    (min 250 100 : Int) ≤ 100 ∧
    (∀ v, (browseArtistParams "mbid" 250 (some "album") none).lookup "type" = some v →
      ∃ t, (some "album" : Option String) = some t ∧ v = .str t) ∧
    (∀ v, (browseArtistParams "mbid" 250 (some "album") none).lookup "status" = some v →
      ∃ s, (none : Option String) = some s ∧ v = .str s) ∧
    (∀ t, (some "album" : Option String) = some t → t ≠ "" →
      (browseArtistParams "mbid" 250 (some "album") none).lookup "type" =
        some (.str t)) ∧
    (∀ s, (none : Option String) = some s → s ≠ "" →
      (browseArtistParams "mbid" 250 (some "album") none).lookup "status" =
        some (.str s)) :=
  (c8_wrappers_clamp_and_passthrough (fun _ _ => Json.null)).2.2.2.2.2.1
    "mbid" 250 (some "album") none

